import Mathlib

/-!
Verification of the motion-triangle intersection kernel
(`intern/cycles/kernel/geom/motion_triangle_intersect.h`).

Shallow embedding conventions:
* Scalars (the C `float` values) are modelled as exact rationals `ℚ`; the
  claims under study are about control flow, exact comparisons and buffer
  updates, not floating-point rounding.
* External collaborators that the header only calls (the vertex
  time-sampler `motion_triangle_vertices`, the geometric predicate
  `ray_triangle_intersect`, the visibility texture fetch, the LCG
  `lcg_step_uint`, `normalize` / `normalize_len`, and the object transform
  lookups) are fields of a `KernelGlobals` record, i.e. arbitrary oracles,
  exactly as the spec lists them as external interfaces.
* The configuration macros the spec describes as enabled
  (`__INTERSECTION_REFINE__`, `__BVH_LOCAL__`, `__VISIBILITY_FLAG__`) are
  compiled in; the `__KERNEL_GPU_RAYTRACING__` choice inside
  `motion_triangle_refine_local` is an explicit `Bool` parameter because one
  claim is about the difference between the two configurations.
* C in/out pointer parameters become explicit state passing: the local
  intersector returns `(stop?, buffer, lcg-state)`.
-/

/-- A 3-component vector of exact scalars, modelling the C `float3`. -/
structure Vec3 where
  x : ℚ
  y : ℚ
  z : ℚ
  deriving DecidableEq, Repr

instance : Add Vec3 := ⟨fun a b => ⟨a.x + b.x, a.y + b.y, a.z + b.z⟩⟩

instance : Sub Vec3 := ⟨fun a b => ⟨a.x - b.x, a.y - b.y, a.z - b.z⟩⟩

instance : SMul ℚ Vec3 := ⟨fun c v => ⟨c * v.x, c * v.y, c * v.z⟩⟩

/-- Cross product of two `Vec3`, modelling the kernel `cross`. -/
def cross (a b : Vec3) : Vec3 :=
  ⟨a.y * b.z - a.z * b.y, a.z * b.x - a.x * b.z, a.x * b.y - a.y * b.x⟩

/-- Dot product of two `Vec3`, modelling the kernel `dot`. -/
def dot (a b : Vec3) : ℚ :=
  a.x * b.x + a.y * b.y + a.z * b.z

/-- Modelled from the spec: the external primitive-type tag constant
`PRIMITIVE_MOTION_TRIANGLE` (defined in kernel type headers outside this
source file); only its identity matters to the claims, so it is fixed to an
arbitrary concrete value. -/
def PRIMITIVE_MOTION_TRIANGLE : Nat := 2

/-- The caller-visible intersection record: distance `t`, barycentric
coordinates `u`, `v`, primitive and object ids and the type tag. -/
structure Intersection where
  t : ℚ
  u : ℚ
  v : ℚ
  prim : Int
  object : Int
  type : Nat
  deriving DecidableEq, Repr

/-- The Local Intersection Buffer: a running count of candidates seen, the
record slots and the parallel geometric-normal storage. Slots are modelled
as total functions from slot index, mirroring a caller-supplied array that
is only ever written at indices below `max_hits`. -/
structure LocalIntersection where
  num_hits : Nat
  hits : Nat → Intersection
  Ng : Nat → Vec3

/-- Modelled from the spec: the external shader-data flag bit
`SD_OBJECT_TRANSFORM_APPLIED` (defined outside this source file); only its
nonzero-ness matters, so it is fixed to an arbitrary nonzero bit. -/
def SD_OBJECT_TRANSFORM_APPLIED : Nat := 512

/-- The slice of `ShaderData` this header reads: the object flag word. -/
structure ShaderData where
  object_flag : Nat

/-- Modelled from the spec: an instance transform from external transform
storage, abstracted to its action on points and on directions. -/
structure Transform where
  point_map : Vec3 → Vec3
  dir_map : Vec3 → Vec3

/-- The kernel `transform_point` applied through the abstract transform. -/
def transform_point (tfm : Transform) (P : Vec3) : Vec3 := tfm.point_map P

/-- The kernel `transform_direction` applied through the abstract transform. -/
def transform_direction (tfm : Transform) (D : Vec3) : Vec3 := tfm.dir_map D

/-- The external collaborators consumed by this header, bundled as the spec
bundles them: the vertex time-sampler, the pure ray-triangle predicate
(returning `(u, v, t)` on accept), the per-primitive visibility fetch, the
pseudo-random stream step (returning the drawn value and the advanced
state), the normalization helpers and the instance-transform lookups. -/
structure KernelGlobals where
  motion_triangle_vertices : Int → Int → ℚ → Vec3 × Vec3 × Vec3
  ray_triangle_intersect : Vec3 → Vec3 → ℚ → Vec3 × Vec3 × Vec3 → Option (ℚ × ℚ × ℚ)
  prim_visibility : Int → Nat
  lcg_step_uint : Nat → Nat × Nat
  normalize : Vec3 → Vec3
  normalize_len : Vec3 → Vec3 × ℚ
  object_get_transform : ShaderData → Transform
  object_get_inverse_transform : ShaderData → Transform

/-- The corrective refinement distance `rt` computed by both refine
variants: edges `e1 = verts[0] - verts[2]`, `e2 = verts[1] - verts[2]`,
`s1 = cross(D, e2)`, `invdivisor = 1 / dot(s1, e1)`, `d = P - verts[2]`,
`s2 = cross(d, e1)`, `rt = dot(e2, s2) * invdivisor`. -/
def refine_rt (D P : Vec3) (verts : Vec3 × Vec3 × Vec3) : ℚ :=
  let e1 := verts.1 - verts.2.2
  let e2 := verts.2.1 - verts.2.2
  let s1 := cross D e2
  let invdivisor := 1 / dot s1 e1
  let d := P - verts.2.2
  let s2 := cross d e1
  dot e2 s2 * invdivisor

/-- `motion_triangle_refine` with `__INTERSECTION_REFINE__` enabled (the
configuration the spec describes). When the object transform has not been
applied, the zero-distance query returns `P` unchanged, otherwise the query
is moved to object space and renormalized; the shared middle section
advances to `P + D * t` and adds the corrective `D * rt`; the transform
back to world space again only happens when the transform has not been
applied. -/
def motion_triangle_refine (kg : KernelGlobals) (sd : ShaderData)
    (P D : Vec3) (t : ℚ) (isect_object isect_prim : Int)
    (verts : Vec3 × Vec3 × Vec3) : Vec3 :=
  if sd.object_flag &&& SD_OBJECT_TRANSFORM_APPLIED = 0 then
    if t = 0 then
      P
    else
      let tfm := kg.object_get_inverse_transform sd
      let P1 := transform_point tfm P
      let nl := kg.normalize_len (transform_direction tfm (t • D))
      let D1 := nl.1
      let t1 := nl.2
      let P2 := P1 + t1 • D1
      let rt := refine_rt D1 P2 verts
      transform_point (kg.object_get_transform sd) (P2 + rt • D1)
  else
    let P2 := P + t • D
    let rt := refine_rt D P2 verts
    P2 + rt • D

/-- `motion_triangle_refine_local`. The `gpu_raytracing` flag is the
`__KERNEL_GPU_RAYTRACING__` configuration choice: on those backends `t` is
already in world space and the function forwards to
`motion_triangle_refine`; otherwise (`__INTERSECTION_REFINE__` enabled) it
performs the object-space refinement with `t` taken as an object-space
distance (no renormalization against `t`, no zero special case). -/
def motion_triangle_refine_local (gpu_raytracing : Bool) (kg : KernelGlobals)
    (sd : ShaderData) (P D : Vec3) (t : ℚ) (isect_object isect_prim : Int)
    (verts : Vec3 × Vec3 × Vec3) : Vec3 :=
  if gpu_raytracing then
    motion_triangle_refine kg sd P D t isect_object isect_prim verts
  else
    if sd.object_flag &&& SD_OBJECT_TRANSFORM_APPLIED = 0 then
      let tfm := kg.object_get_inverse_transform sd
      let P1 := transform_point tfm P
      let D1 := kg.normalize (transform_direction tfm D)
      let P2 := P1 + t • D1
      let rt := refine_rt D1 P2 verts
      transform_point (kg.object_get_transform sd) (P2 + rt • D1)
    else
      let P2 := P + t • D
      let rt := refine_rt D P2 verts
      P2 + rt • D

/-- `motion_triangle_intersect` with `__VISIBILITY_FLAG__` enabled: sample
the vertices at the ray time, run the ray-triangle test, and on a
geometric hit require a nonzero bitwise intersection of the fetched
per-primitive visibility flags with the caller mask before populating the
intersection record. Returns the flag together with the (possibly
unchanged) record, modelling the in/out pointer. -/
def motion_triangle_intersect (kg : KernelGlobals) (isect : Intersection)
    (P dir : Vec3) (tmax time : ℚ) (visibility : Nat)
    (object prim prim_addr : Int) : Bool × Intersection :=
  let verts := kg.motion_triangle_vertices object prim time
  match kg.ray_triangle_intersect P dir tmax verts with
  | some (u, v, t) =>
      if kg.prim_visibility prim_addr &&& visibility ≠ 0 then
        (true, { t := t, u := u, v := v, prim := prim, object := object,
                 type := PRIMITIVE_MOTION_TRIANGLE })
      else
        (false, isect)
  | none => (false, isect)

/-- Writing the record and the geometric normal into slot `hit` of the
local buffer (the tail of `motion_triangle_intersect_local`). -/
def record_hit (li : LocalIntersection) (hit : Nat) (isect : Intersection)
    (n : Vec3) : LocalIntersection :=
  { li with hits := Function.update li.hits hit isect,
            Ng := Function.update li.Ng hit n }

/-- The duplicate-suppression scan of `motion_triangle_intersect_local`:
`for (int i = min(max_hits, num_hits) - 1; i >= 0; --i) if (hits[i].t == t)
return false;` — scans indices `count - 1` down to `0` and reports whether
an exact distance match was found. -/
def local_dup_scan (li : LocalIntersection) (t : ℚ) : Nat → Bool
  | 0 => false
  | Nat.succ i => if (li.hits i).t = t then true else local_dup_scan li t i

/-- `motion_triangle_intersect_local` (under `__BVH_LOCAL__`): sample the
vertices, run the ray-triangle test (reject: return `false`, everything
unchanged); with `max_hits = 0` report existence (`true`) without touching
the buffer; with a random stream, suppress duplicates, increment the
candidate count and either fill the next free slot or reservoir-sample a
replacement index, discarding the candidate when the drawn index is out of
capacity; without a random stream keep only the closest hit in slot 0.
Returns `(stop?, buffer, lcg-state)`. -/
def motion_triangle_intersect_local (kg : KernelGlobals)
    (local_isect : LocalIntersection) (P dir : Vec3) (time : ℚ)
    (object prim prim_addr : Int) (tmax : ℚ) (lcg_state : Option Nat)
    (max_hits : Nat) : Bool × LocalIntersection × Option Nat :=
  let verts := kg.motion_triangle_vertices object prim time
  match kg.ray_triangle_intersect P dir tmax verts with
  | none => (false, local_isect, lcg_state)
  | some (u, v, t) =>
    if max_hits = 0 then
      (true, local_isect, lcg_state)
    else
      let isect : Intersection :=
        { t := t, u := u, v := v, prim := prim, object := object,
          type := PRIMITIVE_MOTION_TRIANGLE }
      let n := kg.normalize (cross (verts.2.1 - verts.1) (verts.2.2 - verts.1))
      match lcg_state with
      | some st =>
        if local_dup_scan local_isect t (min max_hits local_isect.num_hits) then
          (false, local_isect, some st)
        else
          let li := { local_isect with num_hits := local_isect.num_hits + 1 }
          if li.num_hits ≤ max_hits then
            (false, record_hit li (li.num_hits - 1) isect n, some st)
          else
            let step := kg.lcg_step_uint st
            let hit := step.1 % li.num_hits
            if max_hits ≤ hit then
              (false, li, some step.2)
            else
              (false, record_hit li hit isect n, some step.2)
      | none =>
        if local_isect.num_hits ≠ 0 ∧ (local_isect.hits 0).t < t then
          (false, local_isect, none)
        else
          (false, record_hit { local_isect with num_hits := 1 } 0 isect n, none)

/-! Concrete instantiations used to exercise the definitions: a trivial
transform, shader-data values with the transform-applied flag set and
clear, an empty local buffer, and oracle bundles that drive the local
intersector through prescribed candidate sequences. -/

/-- The identity instance transform. -/
def idTransform : Transform := ⟨id, id⟩

/-- Shader data with `SD_OBJECT_TRANSFORM_APPLIED` set. -/
def sd_applied : ShaderData := ⟨SD_OBJECT_TRANSFORM_APPLIED⟩

/-- Shader data with `SD_OBJECT_TRANSFORM_APPLIED` clear. -/
def sd_world : ShaderData := ⟨0⟩

/-- A triangle in the plane `z = 0`: vertices `(1,0,0)`, `(0,1,0)`,
`(0,0,0)`; used to exhibit a nonzero corrective `rt` in the refiner. -/
def vertsZ : Vec3 × Vec3 × Vec3 := (⟨1, 0, 0⟩, ⟨0, 1, 0⟩, ⟨0, 0, 0⟩)

/-- A default (zeroed) intersection record for initializing buffers. -/
def isect0 : Intersection := ⟨0, 0, 0, 0, 0, 0⟩

/-- An empty local intersection buffer. -/
def li_empty : LocalIntersection :=
  { num_hits := 0, hits := fun _ => isect0, Ng := fun _ => ⟨0, 0, 0⟩ }

/-- A buffer already holding one hit at distance 10 (primitive 0). -/
def li_one : LocalIntersection :=
  { num_hits := 1,
    hits := fun _ => ⟨10, 0, 0, 0, 0, PRIMITIVE_MOTION_TRIANGLE⟩,
    Ng := fun _ => ⟨0, 0, 0⟩ }

/-- The candidate distances of the reservoir scenario: primitives 0, 1, 2,
3 are offered at the pairwise distinct distances 10, 20, 30, 40. -/
def c2_tval (p : Int) : ℚ :=
  if p = 0 then 10 else if p = 1 then 20 else if p = 2 then 30 else 40

/-- Oracle bundle for the reservoir scenario: primitive `p` yields the
interpolated vertex `(c2_tval p, 0, 0)` and the geometric test accepts it
at distance `c2_tval p`; the random stream always draws 0 and advances its
counter. -/
def kgC2 : KernelGlobals :=
  { motion_triangle_vertices := fun _ p _ => (⟨c2_tval p, 0, 0⟩, ⟨0, 1, 0⟩, ⟨0, 0, 1⟩),
    ray_triangle_intersect := fun _ _ _ verts => some (0, 0, verts.1.x),
    prim_visibility := fun _ => 1,
    lcg_step_uint := fun s => (0, s + 1),
    normalize := fun v => v,
    normalize_len := fun v => (v, 1),
    object_get_transform := fun _ => idTransform,
    object_get_inverse_transform := fun _ => idTransform }

/-- One call of the local intersector in the reservoir scenario: ray from
the origin along `z`, time 0, object 0, primitive `p`, `tmax = 100`,
`max_hits = 2`; threads the buffer and random-stream state. -/
def c2_call (s : LocalIntersection × Option Nat) (p : Int) :
    LocalIntersection × Option Nat :=
  (motion_triangle_intersect_local kgC2 s.1 ⟨0, 0, 0⟩ ⟨0, 0, 1⟩ 0 0 p 0 100
    s.2 2).2

/-- The buffer and stream state after feeding candidates 0, 1, 2, 3 to an
initially empty buffer in the reservoir scenario. -/
def c2_final : LocalIntersection × Option Nat :=
  c2_call (c2_call (c2_call (c2_call (li_empty, some 0) 0) 1) 2) 3

/-- The intersection record the reservoir scenario produces for candidate
`p`: distance `c2_tval p`, barycentrics `(0, 0)`, primitive `p`, object 0. -/
def c2_rec (p : Int) : Intersection :=
  ⟨c2_tval p, 0, 0, p, 0, PRIMITIVE_MOTION_TRIANGLE⟩

/-- The candidate distances of the closest-only scenario: primitives 0, 1,
2 are offered at distances 5, 3, 7. -/
def c3_tval (p : Int) : ℚ :=
  if p = 0 then 5 else if p = 1 then 3 else 7

/-- Oracle bundle for the closest-only scenario: primitive `p` yields the
vertex `(c3_tval p, 0, 0)` and the geometric test accepts at distance
`c3_tval p`. -/
def kgC3 : KernelGlobals :=
  { motion_triangle_vertices := fun _ p _ => (⟨c3_tval p, 0, 0⟩, ⟨0, 1, 0⟩, ⟨0, 0, 1⟩),
    ray_triangle_intersect := fun _ _ _ verts => some (0, 0, verts.1.x),
    prim_visibility := fun _ => 1,
    lcg_step_uint := fun s => (0, s + 1),
    normalize := fun v => v,
    normalize_len := fun v => (v, 1),
    object_get_transform := fun _ => idTransform,
    object_get_inverse_transform := fun _ => idTransform }

/-- One call of the local intersector in the closest-only scenario (no
random stream, `max_hits = 1`). -/
def c3_call (li : LocalIntersection) (p : Int) : LocalIntersection :=
  (motion_triangle_intersect_local kgC3 li ⟨0, 0, 0⟩ ⟨0, 0, 1⟩ 0 0 p 0 100
    none 1).2.1

/-- The buffer after feeding candidates at distances 5, 3, 7 to an
initially empty buffer in closest-only mode. -/
def c3_final : LocalIntersection :=
  c3_call (c3_call (c3_call li_empty 0) 1) 2

/-- A buffer holding one hit at distance 5 recorded for primitive 1; used
to exhibit the equal-distance behaviour of closest-only mode. -/
def c3_li_eq : LocalIntersection :=
  { num_hits := 1,
    hits := fun _ => ⟨5, 0, 0, 1, 0, PRIMITIVE_MOTION_TRIANGLE⟩,
    Ng := fun _ => ⟨0, 0, 0⟩ }

/-- Oracle bundle whose random stream always draws 1 (used to exhibit a
reservoir discard), with the same geometry as the reservoir scenario. -/
def kgDiscard : KernelGlobals :=
  { kgC2 with lcg_step_uint := fun s => (1, s + 1) }

/-! Component lemmas for the `Vec3` arithmetic and the concrete shader
data, used when evaluating the refiner on explicit inputs. -/

@[simp] theorem Vec3_add_x (a b : Vec3) : (a + b).x = a.x + b.x := rfl

@[simp] theorem Vec3_add_y (a b : Vec3) : (a + b).y = a.y + b.y := rfl

@[simp] theorem Vec3_add_z (a b : Vec3) : (a + b).z = a.z + b.z := rfl

@[simp] theorem Vec3_sub_x (a b : Vec3) : (a - b).x = a.x - b.x := rfl

@[simp] theorem Vec3_sub_y (a b : Vec3) : (a - b).y = a.y - b.y := rfl

@[simp] theorem Vec3_sub_z (a b : Vec3) : (a - b).z = a.z - b.z := rfl

@[simp] theorem Vec3_smul_x (c : ℚ) (v : Vec3) : (c • v).x = c * v.x := rfl

@[simp] theorem Vec3_smul_y (c : ℚ) (v : Vec3) : (c • v).y = c * v.y := rfl

@[simp] theorem Vec3_smul_z (c : ℚ) (v : Vec3) : (c • v).z = c * v.z := rfl

theorem Vec3_eq_iff (a b : Vec3) : a = b ↔ a.x = b.x ∧ a.y = b.y ∧ a.z = b.z := by
  cases a
  cases b
  simp

theorem sd_applied_ne : ¬ (sd_applied.object_flag &&& SD_OBJECT_TRANSFORM_APPLIED = 0) := by
  decide

/-! Branch characterization lemmas for `motion_triangle_intersect_local`.
Each one pins down the full result of the function on one path of the
source's control flow; the claim theorems below are assembled from them. -/

theorem local_dup_scan_true_iff (li : LocalIntersection) (t : ℚ) (n : Nat) :
    local_dup_scan li t n = true ↔ ∃ i, i < n ∧ (li.hits i).t = t := by
  induction n with
  | zero => simp [local_dup_scan]
  | succ k ih =>
      simp only [local_dup_scan]
      by_cases h : (li.hits k).t = t
      · simp only [h, if_pos rfl]
        constructor
        · intro _
          exact ⟨k, Nat.lt_succ_self k, h⟩
        · intro _
          rfl
      · rw [if_neg h, ih]
        constructor
        · rintro ⟨i, hi, hit⟩
          exact ⟨i, Nat.lt_succ_of_lt hi, hit⟩
        · rintro ⟨i, hi, hit⟩
          rcases Nat.lt_succ_iff_lt_or_eq.mp hi with hlt | heq
          · exact ⟨i, hlt, hit⟩
          · exact absurd (heq ▸ hit) h

theorem local_dup_scan_false_iff (li : LocalIntersection) (t : ℚ) (n : Nat) :
    local_dup_scan li t n = false ↔ ∀ i, i < n → (li.hits i).t ≠ t := by
  rw [← Bool.not_eq_true, local_dup_scan_true_iff]
  push_neg
  rfl

theorem mtil_geom_reject (kg : KernelGlobals) (li : LocalIntersection)
    (P dir : Vec3) (time : ℚ) (object prim prim_addr : Int) (tmax : ℚ)
    (lcg_state : Option Nat) (max_hits : Nat)
    (h : kg.ray_triangle_intersect P dir tmax
      (kg.motion_triangle_vertices object prim time) = none) :
    motion_triangle_intersect_local kg li P dir time object prim prim_addr
      tmax lcg_state max_hits = (false, li, lcg_state) := by
  simp [motion_triangle_intersect_local, h]

theorem mtil_max_hits_zero (kg : KernelGlobals) (li : LocalIntersection)
    (P dir : Vec3) (time : ℚ) (object prim prim_addr : Int) (tmax : ℚ)
    (lcg_state : Option Nat) (u v t : ℚ)
    (h : kg.ray_triangle_intersect P dir tmax
      (kg.motion_triangle_vertices object prim time) = some (u, v, t)) :
    motion_triangle_intersect_local kg li P dir time object prim prim_addr
      tmax lcg_state 0 = (true, li, lcg_state) := by
  simp [motion_triangle_intersect_local, h]

theorem mtil_dup_reject (kg : KernelGlobals) (li : LocalIntersection)
    (P dir : Vec3) (time : ℚ) (object prim prim_addr : Int) (tmax : ℚ)
    (st : Nat) (max_hits : Nat) (u v t : ℚ)
    (h : kg.ray_triangle_intersect P dir tmax
      (kg.motion_triangle_vertices object prim time) = some (u, v, t))
    (hmax : max_hits ≠ 0)
    (hdup : local_dup_scan li t (min max_hits li.num_hits) = true) :
    motion_triangle_intersect_local kg li P dir time object prim prim_addr
      tmax (some st) max_hits = (false, li, some st) := by
  simp [motion_triangle_intersect_local, h, hmax, hdup]

theorem mtil_fill_slot (kg : KernelGlobals) (li : LocalIntersection)
    (P dir : Vec3) (time : ℚ) (object prim prim_addr : Int) (tmax : ℚ)
    (st : Nat) (max_hits : Nat) (u v t : ℚ)
    (h : kg.ray_triangle_intersect P dir tmax
      (kg.motion_triangle_vertices object prim time) = some (u, v, t))
    (hmax : max_hits ≠ 0)
    (hnodup : local_dup_scan li t (min max_hits li.num_hits) = false)
    (hcap : li.num_hits + 1 ≤ max_hits) :
    motion_triangle_intersect_local kg li P dir time object prim prim_addr
      tmax (some st) max_hits =
      (false,
       record_hit { li with num_hits := li.num_hits + 1 } li.num_hits
         ⟨t, u, v, prim, object, PRIMITIVE_MOTION_TRIANGLE⟩
         (kg.normalize
           (cross ((kg.motion_triangle_vertices object prim time).2.1
                    - (kg.motion_triangle_vertices object prim time).1)
                  ((kg.motion_triangle_vertices object prim time).2.2
                    - (kg.motion_triangle_vertices object prim time).1))),
       some st) := by
  simp [motion_triangle_intersect_local, h, hmax, hnodup, hcap]

theorem mtil_reservoir_discard (kg : KernelGlobals) (li : LocalIntersection)
    (P dir : Vec3) (time : ℚ) (object prim prim_addr : Int) (tmax : ℚ)
    (st : Nat) (max_hits : Nat) (u v t : ℚ)
    (h : kg.ray_triangle_intersect P dir tmax
      (kg.motion_triangle_vertices object prim time) = some (u, v, t))
    (hmax : max_hits ≠ 0)
    (hnodup : local_dup_scan li t (min max_hits li.num_hits) = false)
    (hover : max_hits < li.num_hits + 1)
    (hdraw : max_hits ≤ (kg.lcg_step_uint st).1 % (li.num_hits + 1)) :
    motion_triangle_intersect_local kg li P dir time object prim prim_addr
      tmax (some st) max_hits =
      (false, { li with num_hits := li.num_hits + 1 },
       some (kg.lcg_step_uint st).2) := by
  simp [motion_triangle_intersect_local, h, hmax, hnodup,
        Nat.not_le.mpr hover, hdraw]

theorem mtil_reservoir_replace (kg : KernelGlobals) (li : LocalIntersection)
    (P dir : Vec3) (time : ℚ) (object prim prim_addr : Int) (tmax : ℚ)
    (st : Nat) (max_hits : Nat) (u v t : ℚ)
    (h : kg.ray_triangle_intersect P dir tmax
      (kg.motion_triangle_vertices object prim time) = some (u, v, t))
    (hmax : max_hits ≠ 0)
    (hnodup : local_dup_scan li t (min max_hits li.num_hits) = false)
    (hover : max_hits < li.num_hits + 1)
    (hdraw : (kg.lcg_step_uint st).1 % (li.num_hits + 1) < max_hits) :
    motion_triangle_intersect_local kg li P dir time object prim prim_addr
      tmax (some st) max_hits =
      (false,
       record_hit { li with num_hits := li.num_hits + 1 }
         ((kg.lcg_step_uint st).1 % (li.num_hits + 1))
         ⟨t, u, v, prim, object, PRIMITIVE_MOTION_TRIANGLE⟩
         (kg.normalize
           (cross ((kg.motion_triangle_vertices object prim time).2.1
                    - (kg.motion_triangle_vertices object prim time).1)
                  ((kg.motion_triangle_vertices object prim time).2.2
                    - (kg.motion_triangle_vertices object prim time).1))),
       some (kg.lcg_step_uint st).2) := by
  simp [motion_triangle_intersect_local, h, hmax, hnodup,
        Nat.not_le.mpr hover, Nat.not_le.mpr hdraw]

theorem mtil_closest_reject (kg : KernelGlobals) (li : LocalIntersection)
    (P dir : Vec3) (time : ℚ) (object prim prim_addr : Int) (tmax : ℚ)
    (max_hits : Nat) (u v t : ℚ)
    (h : kg.ray_triangle_intersect P dir tmax
      (kg.motion_triangle_vertices object prim time) = some (u, v, t))
    (hmax : max_hits ≠ 0)
    (hnum : li.num_hits ≠ 0) (hfar : (li.hits 0).t < t) :
    motion_triangle_intersect_local kg li P dir time object prim prim_addr
      tmax none max_hits = (false, li, none) := by
  simp [motion_triangle_intersect_local, h, hmax, hnum, hfar]

theorem mtil_closest_accept (kg : KernelGlobals) (li : LocalIntersection)
    (P dir : Vec3) (time : ℚ) (object prim prim_addr : Int) (tmax : ℚ)
    (max_hits : Nat) (u v t : ℚ)
    (h : kg.ray_triangle_intersect P dir tmax
      (kg.motion_triangle_vertices object prim time) = some (u, v, t))
    (hmax : max_hits ≠ 0)
    (hclose : ¬ (li.num_hits ≠ 0 ∧ (li.hits 0).t < t)) :
    motion_triangle_intersect_local kg li P dir time object prim prim_addr
      tmax none max_hits =
      (false,
       record_hit { li with num_hits := 1 } 0
         ⟨t, u, v, prim, object, PRIMITIVE_MOTION_TRIANGLE⟩
         (kg.normalize
           (cross ((kg.motion_triangle_vertices object prim time).2.1
                    - (kg.motion_triangle_vertices object prim time).1)
                  ((kg.motion_triangle_vertices object prim time).2.2
                    - (kg.motion_triangle_vertices object prim time).1))),
       none) := by
  simp [motion_triangle_intersect_local, h, hmax, hclose]

theorem mtil_fst_false (kg : KernelGlobals) (li : LocalIntersection)
    (P dir : Vec3) (time : ℚ) (object prim prim_addr : Int) (tmax : ℚ)
    (lcg_state : Option Nat) (max_hits : Nat) (hmax : max_hits ≠ 0) :
    (motion_triangle_intersect_local kg li P dir time object prim prim_addr
      tmax lcg_state max_hits).1 = false := by
  cases hrt : kg.ray_triangle_intersect P dir tmax
      (kg.motion_triangle_vertices object prim time) with
  | none =>
      rw [mtil_geom_reject kg li P dir time object prim prim_addr tmax
        lcg_state max_hits hrt]
  | some uvt =>
      obtain ⟨u, v, t⟩ := uvt
      cases lcg_state with
      | some st =>
          by_cases hdup : local_dup_scan li t (min max_hits li.num_hits) = true
          · rw [mtil_dup_reject kg li P dir time object prim prim_addr tmax st
              max_hits u v t hrt hmax hdup]
          · have hnd : local_dup_scan li t (min max_hits li.num_hits) = false := by
              cases hh : local_dup_scan li t (min max_hits li.num_hits)
              · rfl
              · exact absurd hh hdup
            by_cases hcap : li.num_hits + 1 ≤ max_hits
            · rw [mtil_fill_slot kg li P dir time object prim prim_addr tmax st
                max_hits u v t hrt hmax hnd hcap]
            · have hover : max_hits < li.num_hits + 1 := Nat.not_le.mp hcap
              by_cases hdraw :
                  max_hits ≤ (kg.lcg_step_uint st).1 % (li.num_hits + 1)
              · rw [mtil_reservoir_discard kg li P dir time object prim
                  prim_addr tmax st max_hits u v t hrt hmax hnd hover hdraw]
              · rw [mtil_reservoir_replace kg li P dir time object prim
                  prim_addr tmax st max_hits u v t hrt hmax hnd hover
                  (Nat.not_le.mp hdraw)]
      | none =>
          by_cases hc : li.num_hits ≠ 0 ∧ (li.hits 0).t < t
          · rw [mtil_closest_reject kg li P dir time object prim prim_addr
              tmax max_hits u v t hrt hmax hc.1 hc.2]
          · rw [mtil_closest_accept kg li P dir time object prim prim_addr
              tmax max_hits u v t hrt hmax hc]

/-! Claim theorems. -/

/-- C8: on backends where the acceleration structure reports world-space
hit distances (the GPU-ray-tracing configuration),
`motion_triangle_refine_local` is a pass-through: for every input it
returns exactly `motion_triangle_refine` applied to the same arguments. -/
theorem C8_refine_local_gpu_passthrough (kg : KernelGlobals) (sd : ShaderData)
    (P D : Vec3) (t : ℚ) (isect_object isect_prim : Int)
    (verts : Vec3 × Vec3 × Vec3) :
    motion_triangle_refine_local true kg sd P D t isect_object isect_prim
        verts =
      motion_triangle_refine kg sd P D t isect_object isect_prim verts := rfl

/-- C4 counterexample: with the transform-applied flag set,
`motion_triangle_refine` on the ray from the origin along `z` with `t = 1`
against the triangle `vertsZ` (which lies in the plane `z = 0`) returns
`(0,0,0)`, not the naive `P + D * t = (0,0,1)`: refinement is not skipped,
only the coordinate transforms are. -/
theorem C4_counterexample :
    motion_triangle_refine kgC2 sd_applied ⟨0, 0, 0⟩ ⟨0, 0, 1⟩ 1 0 0 vertsZ =
        ⟨0, 0, 0⟩ ∧
    (⟨0, 0, 0⟩ : Vec3) + (1 : ℚ) • ⟨0, 0, 1⟩ = (⟨0, 0, 1⟩ : Vec3) ∧
    motion_triangle_refine kgC2 sd_applied ⟨0, 0, 0⟩ ⟨0, 0, 1⟩ 1 0 0 vertsZ ≠
      (⟨0, 0, 0⟩ : Vec3) + (1 : ℚ) • ⟨0, 0, 1⟩ := by
  refine ⟨?_, ?_, ?_⟩
  · unfold motion_triangle_refine
    rw [if_neg sd_applied_ne]
    simp [refine_rt, cross, dot, vertsZ, Vec3_eq_iff, Vec3_add_x, Vec3_add_y,
          Vec3_add_z, Vec3_smul_x, Vec3_smul_y, Vec3_smul_z]
  · simp [Vec3_eq_iff, Vec3_add_x, Vec3_add_y, Vec3_add_z, Vec3_smul_x,
          Vec3_smul_y, Vec3_smul_z]
  · unfold motion_triangle_refine
    rw [if_neg sd_applied_ne]
    simp [refine_rt, cross, dot, vertsZ, Vec3_eq_iff, Vec3_add_x, Vec3_add_y,
          Vec3_add_z, Vec3_smul_x, Vec3_smul_y, Vec3_smul_z]

/-- C4 (amended): for every input with the `SD_OBJECT_TRANSFORM_APPLIED`
flag set, `motion_triangle_refine` skips the coordinate transforms and the
zero-distance special case but still applies the corrective refinement
step: it returns `(P + t * D) + rt * D` with `rt` the corrective delta of
the re-intersection solve, which is the naive point `P + D * t` only when
that delta vanishes. -/
theorem C4_transform_applied_result (kg : KernelGlobals) (sd : ShaderData)
    (P D : Vec3) (t : ℚ) (isect_object isect_prim : Int)
    (verts : Vec3 × Vec3 × Vec3)
    (h : sd.object_flag &&& SD_OBJECT_TRANSFORM_APPLIED ≠ 0) :
    motion_triangle_refine kg sd P D t isect_object isect_prim verts =
      (P + t • D) + refine_rt D (P + t • D) verts • D := by
  unfold motion_triangle_refine
  rw [if_neg h]

/-- C4 witness: the amended statement evaluated on the concrete
counterexample input. -/
theorem C4_witness :
    sd_applied.object_flag &&& SD_OBJECT_TRANSFORM_APPLIED ≠ 0 ∧
    motion_triangle_refine kgC2 sd_applied ⟨0, 0, 0⟩ ⟨0, 0, 1⟩ 1 0 0 vertsZ =
      ((⟨0, 0, 0⟩ : Vec3) + (1 : ℚ) • ⟨0, 0, 1⟩) +
        refine_rt ⟨0, 0, 1⟩ ((⟨0, 0, 0⟩ : Vec3) + (1 : ℚ) • ⟨0, 0, 1⟩)
          vertsZ • ⟨0, 0, 1⟩ :=
  ⟨by decide,
   C4_transform_applied_result kgC2 sd_applied ⟨0, 0, 0⟩ ⟨0, 0, 1⟩ 1 0 0
     vertsZ (by decide)⟩

/-- C9 counterexample: with the transform-applied flag set and `t = 0`,
`motion_triangle_refine` at `P = (0,0,1)` against the triangle `vertsZ`
returns `(0,0,0)`, not the input point `P`: the zero-distance special case
only exists on the branch where the transform has not been applied. -/
theorem C9_counterexample :
    motion_triangle_refine kgC2 sd_applied ⟨0, 0, 1⟩ ⟨0, 0, 1⟩ 0 0 0 vertsZ =
        ⟨0, 0, 0⟩ ∧
    motion_triangle_refine kgC2 sd_applied ⟨0, 0, 1⟩ ⟨0, 0, 1⟩ 0 0 0 vertsZ ≠
      (⟨0, 0, 1⟩ : Vec3) := by
  constructor
  · unfold motion_triangle_refine
    rw [if_neg sd_applied_ne]
    simp [refine_rt, cross, dot, vertsZ, Vec3_eq_iff, Vec3_add_x, Vec3_add_y,
          Vec3_add_z, Vec3_smul_x, Vec3_smul_y, Vec3_smul_z]
  · unfold motion_triangle_refine
    rw [if_neg sd_applied_ne]
    simp [refine_rt, cross, dot, vertsZ, Vec3_eq_iff, Vec3_add_x, Vec3_add_y,
          Vec3_add_z, Vec3_smul_x, Vec3_smul_y, Vec3_smul_z]

/-- C9 (amended): for every call of `motion_triangle_refine` with the
`SD_OBJECT_TRANSFORM_APPLIED` flag clear and `t` exactly zero, the function
returns the input point `P` unchanged (no normalization of the degenerate
direction is performed). -/
theorem C9_zero_t_world (kg : KernelGlobals) (sd : ShaderData) (P D : Vec3)
    (isect_object isect_prim : Int) (verts : Vec3 × Vec3 × Vec3)
    (hflag : sd.object_flag &&& SD_OBJECT_TRANSFORM_APPLIED = 0) :
    motion_triangle_refine kg sd P D 0 isect_object isect_prim verts = P := by
  unfold motion_triangle_refine
  rw [if_pos hflag, if_pos rfl]

/-- C9 witness: the amended statement evaluated with the flag clear on a
concrete input. -/
theorem C9_witness :
    sd_world.object_flag &&& SD_OBJECT_TRANSFORM_APPLIED = 0 ∧
    motion_triangle_refine kgC2 sd_world ⟨7, 8, 9⟩ ⟨0, 0, 1⟩ 0 0 0 vertsZ =
      ⟨7, 8, 9⟩ :=
  ⟨by decide,
   C9_zero_t_world kgC2 sd_world ⟨7, 8, 9⟩ ⟨0, 0, 1⟩ 0 0 vertsZ (by decide)⟩

/-- C5: `motion_triangle_intersect` returns true exactly when the
ray-triangle test accepts and the fetched per-primitive visibility flags
have a nonzero bitwise AND with the caller mask; on success it writes
exactly `(t, u, v, prim, object, PRIMITIVE_MOTION_TRIANGLE)`, and on any
failure the caller's record is left entirely unchanged. -/
theorem C5_intersect_contract (kg : KernelGlobals) (isect : Intersection)
    (P dir : Vec3) (tmax time : ℚ) (visibility : Nat)
    (object prim prim_addr : Int) :
    ((motion_triangle_intersect kg isect P dir tmax time visibility object
        prim prim_addr).1 = true ↔
      ((kg.ray_triangle_intersect P dir tmax
          (kg.motion_triangle_vertices object prim time)).isSome = true ∧
        kg.prim_visibility prim_addr &&& visibility ≠ 0)) ∧
    (∀ u v t,
      kg.ray_triangle_intersect P dir tmax
          (kg.motion_triangle_vertices object prim time) = some (u, v, t) →
      kg.prim_visibility prim_addr &&& visibility ≠ 0 →
      motion_triangle_intersect kg isect P dir tmax time visibility object
          prim prim_addr =
        (true, ⟨t, u, v, prim, object, PRIMITIVE_MOTION_TRIANGLE⟩)) ∧
    ((motion_triangle_intersect kg isect P dir tmax time visibility object
        prim prim_addr).1 = false →
      (motion_triangle_intersect kg isect P dir tmax time visibility object
        prim prim_addr).2 = isect) := by
  cases hrt : kg.ray_triangle_intersect P dir tmax
      (kg.motion_triangle_vertices object prim time) with
  | none =>
      refine ⟨?_, ?_, ?_⟩
      · simp [motion_triangle_intersect, hrt]
      · intro u v t heq
        exact absurd heq (by simp)
      · intro _
        simp [motion_triangle_intersect, hrt]
  | some uvt =>
      obtain ⟨u, v, t⟩ := uvt
      by_cases hvis : kg.prim_visibility prim_addr &&& visibility ≠ 0
      · refine ⟨?_, ?_, ?_⟩
        · simp [motion_triangle_intersect, hrt, hvis]
        · intro u1 v1 t1 heq hv
          simp only [Option.some.injEq, Prod.mk.injEq] at heq
          obtain ⟨hu, hv1, ht⟩ := heq
          subst hu
          subst hv1
          subst ht
          simp [motion_triangle_intersect, hrt, hvis]
        · intro hfalse
          simp [motion_triangle_intersect, hrt, hvis] at hfalse
      · refine ⟨?_, ?_, ?_⟩
        · simp [motion_triangle_intersect, hrt, hvis]
        · intro u1 v1 t1 heq hv
          exact absurd hv hvis
        · intro _
          simp [motion_triangle_intersect, hrt, hvis]

/-- C5 witness: the contract applied at a concrete accepted and visible
candidate. -/
theorem C5_witness :
    motion_triangle_intersect kgC2 isect0 ⟨0, 0, 0⟩ ⟨0, 0, 1⟩ 100 0 1 0 0 0 =
      (true, ⟨10, 0, 0, 0, 0, PRIMITIVE_MOTION_TRIANGLE⟩) := by
  have h := C5_intersect_contract kgC2 isect0 ⟨0, 0, 0⟩ ⟨0, 0, 1⟩ 100 0 1 0 0 0
  exact h.2.1 0 0 10 rfl (by decide)

/-- C7: `motion_triangle_intersect_local` reports "stop traversal" (true)
exactly when the ray-triangle test accepts and `max_hits = 0`, and in the
`max_hits = 0` case it returns without touching the buffer or the random
stream; every other case returns false. -/
theorem C7_traversal_control (kg : KernelGlobals) (li : LocalIntersection)
    (P dir : Vec3) (time : ℚ) (object prim prim_addr : Int) (tmax : ℚ)
    (lcg_state : Option Nat) (max_hits : Nat) :
    ((motion_triangle_intersect_local kg li P dir time object prim prim_addr
        tmax lcg_state max_hits).1 = true ↔
      ((kg.ray_triangle_intersect P dir tmax
          (kg.motion_triangle_vertices object prim time)).isSome = true ∧
        max_hits = 0)) ∧
    (max_hits = 0 →
      (motion_triangle_intersect_local kg li P dir time object prim prim_addr
        tmax lcg_state max_hits).2.1 = li ∧
      (motion_triangle_intersect_local kg li P dir time object prim prim_addr
        tmax lcg_state max_hits).2.2 = lcg_state) := by
  constructor
  · constructor
    · intro htrue
      by_cases hmax : max_hits = 0
      · subst hmax
        cases hrt : kg.ray_triangle_intersect P dir tmax
            (kg.motion_triangle_vertices object prim time) with
        | none =>
            rw [mtil_geom_reject kg li P dir time object prim prim_addr tmax
              lcg_state 0 hrt] at htrue
            exact absurd htrue (by simp)
        | some uvt =>
            exact ⟨by simp [hrt], rfl⟩
      · rw [mtil_fst_false kg li P dir time object prim prim_addr tmax
          lcg_state max_hits hmax] at htrue
        exact absurd htrue (by simp)
    · rintro ⟨hsome, hmax⟩
      subst hmax
      cases hrt : kg.ray_triangle_intersect P dir tmax
          (kg.motion_triangle_vertices object prim time) with
      | none => simp [hrt] at hsome
      | some uvt =>
          obtain ⟨u, v, t⟩ := uvt
          rw [mtil_max_hits_zero kg li P dir time object prim prim_addr tmax
            lcg_state u v t hrt]
  · intro hmax
    subst hmax
    cases hrt : kg.ray_triangle_intersect P dir tmax
        (kg.motion_triangle_vertices object prim time) with
    | none =>
        rw [mtil_geom_reject kg li P dir time object prim prim_addr tmax
          lcg_state 0 hrt]
        exact ⟨rfl, rfl⟩
    | some uvt =>
        obtain ⟨u, v, t⟩ := uvt
        rw [mtil_max_hits_zero kg li P dir time object prim prim_addr tmax
          lcg_state u v t hrt]
        exact ⟨rfl, rfl⟩

/-- C7 witness: existence-only signaling at a concrete accepted candidate
with `max_hits = 0`. -/
theorem C7_witness :
    (motion_triangle_intersect_local kgC2 li_empty ⟨0, 0, 0⟩ ⟨0, 0, 1⟩ 0 0 0 0
      100 (some 0) 0).1 = true := by
  have h := C7_traversal_control kgC2 li_empty ⟨0, 0, 0⟩ ⟨0, 0, 1⟩ 0 0 0 0 100
    (some 0) 0
  exact h.1.mpr ⟨rfl, rfl⟩

/-- C6: in reservoir mode, when the candidate's `t` equals the `t` stored
in any of the first `min(max_hits, num_hits)` slots, the call returns
false and mutates nothing: the buffer is returned as-is and the random
stream is not advanced. -/
theorem C6_duplicate_reject_claim (kg : KernelGlobals) (li : LocalIntersection)
    (P dir : Vec3) (time : ℚ) (object prim prim_addr : Int) (tmax : ℚ)
    (st max_hits : Nat) (u v t : ℚ)
    (haccept : kg.ray_triangle_intersect P dir tmax
      (kg.motion_triangle_vertices object prim time) = some (u, v, t))
    (hmax : max_hits ≠ 0)
    (hdup : ∃ i, i < min max_hits li.num_hits ∧ (li.hits i).t = t) :
    motion_triangle_intersect_local kg li P dir time object prim prim_addr
      tmax (some st) max_hits = (false, li, some st) :=
  mtil_dup_reject kg li P dir time object prim prim_addr tmax st max_hits
    u v t haccept hmax
    ((local_dup_scan_true_iff li t (min max_hits li.num_hits)).mpr hdup)

/-- C6 witness: a duplicate of the single stored distance is rejected with
buffer and stream state returned untouched. -/
theorem C6_witness :
    motion_triangle_intersect_local kgC2 li_one ⟨0, 0, 0⟩ ⟨0, 0, 1⟩ 0 0 0 0
      100 (some 5) 1 = (false, li_one, some 5) :=
  C6_duplicate_reject_claim kgC2 li_one ⟨0, 0, 0⟩ ⟨0, 0, 1⟩ 0 0 0 0 100 5 1
    0 0 10 rfl (by decide) ⟨0, by decide, by decide⟩

/-- C1: in reservoir mode, a non-duplicate geometric hit increments the
candidate count; if the post-increment count `cnt` is within `max_hits`
the record is written to slot `cnt - 1` (other slots untouched), and
otherwise an index in `[0, cnt)` is drawn as the LCG value modulo `cnt`:
the candidate is discarded with no slot written when the index is at least
`max_hits`, and replaces the slot at the drawn index when it is below. -/
theorem C1_reservoir_rule (kg : KernelGlobals) (li : LocalIntersection)
    (P dir : Vec3) (time : ℚ) (object prim prim_addr : Int) (tmax : ℚ)
    (st max_hits : Nat) (u v t : ℚ)
    (haccept : kg.ray_triangle_intersect P dir tmax
      (kg.motion_triangle_vertices object prim time) = some (u, v, t))
    (hmax : max_hits ≠ 0)
    (hnodup : ∀ i, i < min max_hits li.num_hits → (li.hits i).t ≠ t) :
    let res := motion_triangle_intersect_local kg li P dir time object prim
      prim_addr tmax (some st) max_hits
    let cnt := li.num_hits + 1
    let irec : Intersection := ⟨t, u, v, prim, object,
      PRIMITIVE_MOTION_TRIANGLE⟩
    res.2.1.num_hits = cnt ∧
    (cnt ≤ max_hits →
      res.1 = false ∧ res.2.1.hits (cnt - 1) = irec ∧
      ∀ j, j ≠ cnt - 1 → res.2.1.hits j = li.hits j) ∧
    (max_hits < cnt →
      (kg.lcg_step_uint st).1 % cnt < cnt ∧
      (max_hits ≤ (kg.lcg_step_uint st).1 % cnt →
        res.1 = false ∧ res.2.1.hits = li.hits ∧ res.2.1.Ng = li.Ng) ∧
      ((kg.lcg_step_uint st).1 % cnt < max_hits →
        res.1 = false ∧ res.2.1.hits ((kg.lcg_step_uint st).1 % cnt) = irec ∧
        ∀ j, j ≠ (kg.lcg_step_uint st).1 % cnt →
          res.2.1.hits j = li.hits j)) := by
  have hnd : local_dup_scan li t (min max_hits li.num_hits) = false :=
    (local_dup_scan_false_iff li t (min max_hits li.num_hits)).mpr hnodup
  dsimp only
  by_cases hcap : li.num_hits + 1 ≤ max_hits
  · rw [mtil_fill_slot kg li P dir time object prim prim_addr tmax st max_hits
      u v t haccept hmax hnd hcap]
    refine ⟨rfl, fun _ => ⟨rfl, ?_, ?_⟩, fun hover => absurd hcap
      (Nat.not_le.mpr hover)⟩
    · simp [record_hit, Nat.add_sub_cancel, Function.update_same]
    · intro j hj
      simp only [Nat.add_sub_cancel] at hj
      simp [record_hit, Function.update_noteq hj]
  · have hover : max_hits < li.num_hits + 1 := Nat.not_le.mp hcap
    refine ⟨?_, fun hcap2 => absurd hcap2 hcap, fun _ => ⟨?_, ?_, ?_⟩⟩
    · by_cases hdraw : max_hits ≤ (kg.lcg_step_uint st).1 % (li.num_hits + 1)
      · rw [mtil_reservoir_discard kg li P dir time object prim prim_addr tmax
          st max_hits u v t haccept hmax hnd hover hdraw]
      · rw [mtil_reservoir_replace kg li P dir time object prim prim_addr tmax
          st max_hits u v t haccept hmax hnd hover (Nat.not_le.mp hdraw)]
        simp [record_hit]
    · exact Nat.mod_lt _ (Nat.succ_pos _)
    · intro hdraw
      rw [mtil_reservoir_discard kg li P dir time object prim prim_addr tmax
        st max_hits u v t haccept hmax hnd hover hdraw]
      exact ⟨rfl, rfl, rfl⟩
    · intro hdraw
      rw [mtil_reservoir_replace kg li P dir time object prim prim_addr tmax
        st max_hits u v t haccept hmax hnd hover hdraw]
      refine ⟨rfl, ?_, ?_⟩
      · simp [record_hit, Function.update_same]
      · intro j hj
        simp [record_hit, Function.update_noteq hj]

/-- C1 witness: the within-capacity branch at a concrete first candidate
offered to an empty buffer. -/
theorem C1_witness :
    (motion_triangle_intersect_local kgC2 li_empty ⟨0, 0, 0⟩ ⟨0, 0, 1⟩ 0 0 0 0
      100 (some 0) 2).2.1.num_hits = li_empty.num_hits + 1 ∧
    (motion_triangle_intersect_local kgC2 li_empty ⟨0, 0, 0⟩ ⟨0, 0, 1⟩ 0 0 0 0
      100 (some 0) 2).2.1.hits (li_empty.num_hits + 1 - 1) =
      ⟨10, 0, 0, 0, 0, PRIMITIVE_MOTION_TRIANGLE⟩ := by
  have h := C1_reservoir_rule kgC2 li_empty ⟨0, 0, 0⟩ ⟨0, 0, 1⟩ 0 0 0 0 100 0 2
    0 0 10 rfl (by decide) (by intro i hi; simp [li_empty] at hi)
  obtain ⟨h1, h2, h3⟩ := h
  exact ⟨h1, (h2 (by decide)).2.1⟩

/-- C10: in reservoir mode, when a non-duplicate candidate is discarded by
the reservoir draw (drawn index at least `max_hits`), the call still
returns with the candidate count permanently incremented while the records,
the normals and the rest of the buffer are unchanged, and false is
returned. -/
theorem C10_discard_increments (kg : KernelGlobals) (li : LocalIntersection)
    (P dir : Vec3) (time : ℚ) (object prim prim_addr : Int) (tmax : ℚ)
    (st max_hits : Nat) (u v t : ℚ)
    (haccept : kg.ray_triangle_intersect P dir tmax
      (kg.motion_triangle_vertices object prim time) = some (u, v, t))
    (hmax : max_hits ≠ 0)
    (hnodup : ∀ i, i < min max_hits li.num_hits → (li.hits i).t ≠ t)
    (hdraw : max_hits ≤ (kg.lcg_step_uint st).1 % (li.num_hits + 1)) :
    motion_triangle_intersect_local kg li P dir time object prim prim_addr
      tmax (some st) max_hits =
      (false, { li with num_hits := li.num_hits + 1 },
       some (kg.lcg_step_uint st).2) := by
  have hnd : local_dup_scan li t (min max_hits li.num_hits) = false :=
    (local_dup_scan_false_iff li t (min max_hits li.num_hits)).mpr hnodup
  have hover : max_hits < li.num_hits + 1 :=
    lt_of_le_of_lt hdraw (Nat.mod_lt _ (Nat.succ_pos _))
  exact mtil_reservoir_discard kg li P dir time object prim prim_addr tmax st
    max_hits u v t haccept hmax hnd hover hdraw

/-- C10 witness: a concrete discarded candidate (stream draws 1, one hit
stored, `max_hits = 1`) leaves the count incremented and the slots as they
were. -/
theorem C10_witness :
    motion_triangle_intersect_local kgDiscard li_one ⟨0, 0, 0⟩ ⟨0, 0, 1⟩ 0 0 1
      0 100 (some 0) 1 =
      (false, { li_one with num_hits := li_one.num_hits + 1 }, some 1) :=
  C10_discard_increments kgDiscard li_one ⟨0, 0, 0⟩ ⟨0, 0, 1⟩ 0 0 1 0 100 0 1
    0 0 20 rfl (by decide) (by decide) (by decide)

/-- C2 counterexample: in the reservoir scenario (`max_hits = 2`, stream
always drawing 0, four distinct-distance candidates into an empty buffer)
the final buffer is NOT `[candidate0, candidate3]`: candidate 2 already
replaced slot 0 before candidate 3 did, so slot 0 holds candidate 3 and
slot 1 holds candidate 1. -/
theorem C2_counterexample :
    ¬ (c2_final.1.hits 0 = c2_rec 0 ∧ c2_final.1.hits 1 = c2_rec 3) := by
  decide

/-- C2 (amended): the reservoir scenario ends with slot 0 holding candidate
3's record and slot 1 holding candidate 1's record, with all four
candidates counted. -/
theorem C2_amended_result :
    c2_final.1.num_hits = 4 ∧ c2_final.1.hits 0 = c2_rec 3 ∧
    c2_final.1.hits 1 = c2_rec 1 := by
  decide

/-- C3 counterexample: in closest-only mode a candidate whose distance
exactly equals the stored hit's distance is NOT rejected with the buffer
unchanged: the call overwrites slot 0 with the new candidate's record
(stored record had `prim = 1`, candidate has `prim = 0`). -/
theorem C3_counterexample :
    (motion_triangle_intersect_local kgC3 c3_li_eq ⟨0, 0, 0⟩ ⟨0, 0, 1⟩ 0 0 0 0
      100 none 1).1 = false ∧
    (motion_triangle_intersect_local kgC3 c3_li_eq ⟨0, 0, 0⟩ ⟨0, 0, 1⟩ 0 0 0 0
      100 none 1).2.1.hits 0 ≠ c3_li_eq.hits 0 := by
  decide

/-- C3 (amended): in closest-only mode with `max_hits > 0`, an accepted
candidate is rejected with the buffer unchanged exactly when the buffer
already holds a hit whose `t` is strictly smaller than the candidate's;
otherwise (including an exact tie) the candidate's record overwrites slot 0
and the stored-hit count is set to 1. In particular, feeding candidates
with distances 5, 3, 7 into an empty buffer ends with exactly one stored
hit at distance 3. -/
theorem C3_closest_only_rule (kg : KernelGlobals) (li : LocalIntersection)
    (P dir : Vec3) (time : ℚ) (object prim prim_addr : Int) (tmax : ℚ)
    (max_hits : Nat) (u v t : ℚ)
    (haccept : kg.ray_triangle_intersect P dir tmax
      (kg.motion_triangle_vertices object prim time) = some (u, v, t))
    (hmax : max_hits ≠ 0) :
    ((li.num_hits ≠ 0 ∧ (li.hits 0).t < t) →
      motion_triangle_intersect_local kg li P dir time object prim prim_addr
        tmax none max_hits = (false, li, none)) ∧
    (¬ (li.num_hits ≠ 0 ∧ (li.hits 0).t < t) →
      motion_triangle_intersect_local kg li P dir time object prim prim_addr
        tmax none max_hits =
        (false,
         record_hit { li with num_hits := 1 } 0
           ⟨t, u, v, prim, object, PRIMITIVE_MOTION_TRIANGLE⟩
           (kg.normalize
             (cross ((kg.motion_triangle_vertices object prim time).2.1
                      - (kg.motion_triangle_vertices object prim time).1)
                    ((kg.motion_triangle_vertices object prim time).2.2
                      - (kg.motion_triangle_vertices object prim time).1))),
         none)) ∧
    (c3_final.num_hits = 1 ∧ (c3_final.hits 0).t = 3) :=
  ⟨fun h => mtil_closest_reject kg li P dir time object prim prim_addr tmax
    max_hits u v t haccept hmax h.1 h.2,
   fun h => mtil_closest_accept kg li P dir time object prim prim_addr tmax
    max_hits u v t haccept hmax h,
   by decide⟩

/-- C3 witness: the strict-reject case applied at the concrete buffer left
by the 5, 3, 7 scenario against a farther candidate at distance 7. -/
theorem C3_witness :
    motion_triangle_intersect_local kgC3 c3_final ⟨0, 0, 0⟩ ⟨0, 0, 1⟩ 0 0 2 0
      100 none 1 = (false, c3_final, none) := by
  have h := C3_closest_only_rule kgC3 c3_final ⟨0, 0, 0⟩ ⟨0, 0, 1⟩ 0 0 2 0 100
    1 0 0 7 rfl (by decide)
  exact h.1 ⟨by decide, by decide⟩
